import Mathlib

/-!
Shallow embedding of the sentry-app webhook delivery pipeline
(`src/sentry/sentry_apps/tasks/sentry_apps.py`) and of the event-frequency
condition handlers
(`src/sentry/workflow_engine/handlers/condition/event_frequency_handlers.py`).

Database tables are modelled as lists of records; Django `objects.get`
becomes a `find?`/`filter` on those lists, with the `DoesNotExist` /
`MultipleObjectsReturned` exceptions reflected as explicit outcome
constructors.  Celery side effects (scheduling a delivery task, calling
`retryer.retry`, writing a log line, issuing a cache invalidation) are
reflected in the return value of each modelled task.
-/

namespace Sentry

/-- Status of a `SentryAppInstallation` (`SentryAppInstallationStatus`). -/
inductive InstallStatus where
  | pending
  | installed
  | deleted
deriving DecidableEq, Repr

/-- A `SentryAppInstallation` / `RpcSentryAppInstallation` row: the fields the
tasks module reads (`id`, `organization_id`, status, the owning app's id and
its subscribed `sentry_app.events`). -/
structure InstallationRec where
  id : Nat
  organization_id : Nat
  status : InstallStatus
  sentry_app_events : List String
  sentry_app_id : Nat
deriving DecidableEq, Repr

/-- A `ServiceHook` row: `organization_id`, `actor_id` (the installation id),
its own `id` and the list of subscribed event names. -/
structure ServiceHookRec where
  id : Nat
  organization_id : Nat
  actor_id : Nat
  events : List String
deriving DecidableEq, Repr

/-- A `Group` row: only `id` and `project_id` are read by the tasks module. -/
structure GroupRec where
  id : Nat
  project_id : Nat
deriving DecidableEq, Repr

/-- A `Project` row: `id` and `organization_id`. -/
structure ProjectRec where
  id : Nat
  organization_id : Nat
deriving DecidableEq, Repr

/-- Datastore state visible to the delivery tasks: installations
(`app_service.installation_by_id`), service hooks, `ServiceHookProject`
scoping rows (`(service_hook_id, project_id)` pairs), groups and user ids. -/
structure DeliveryState where
  installations : List InstallationRec
  serviceHooks : List ServiceHookRec
  serviceHookProjects : List (Nat × Nat)
  groups : List GroupRec
  users : List Nat
deriving Repr

/-- The `AppPlatformEvent` outbound envelope: `resource`, `action`, the
installation reference, the `data` mapping and the optional `actor`. -/
structure Envelope (α : Type) where
  resource : String
  action : String
  install : InstallationRec
  data : α
  actor : Option Nat
deriving DecidableEq, Repr

/-- Result of one `send_webhooks` invocation (the Delivery Gate). -/
inductive GateOutcome (α : Type) where
  /-- `ServiceHook.objects.get` found no row: logged skip. -/
  | missingHook
  /-- `ServiceHook.objects.get` found several rows: `MultipleObjectsReturned`. -/
  | multipleHooksError
  /-- `event not in servicehook.events`: silent skip. -/
  | eventNotSubscribed
  /-- `ServiceHookProject` rows exist for the hook: the function falls
  through the `if not project_limited` guard and sends nothing. -/
  | projectLimitedSkip
  /-- `event.split "."` did not yield exactly two parts: `ValueError`. -/
  | splitError
  /-- `send_and_save_webhook_request` was invoked with this envelope. -/
  | sent (env : Envelope α)
deriving DecidableEq, Repr

/-- Python's `event.split(".")`: split the character list on the dot
separator (e.g. `"issue.created"` ↦ `["issue", "created"]`, and the empty
string ↦ `[""]`, exactly as `str.split`). -/
def splitEventName (event : String) : List String :=
  (event.toList.splitOn '.').map (fun cs => String.mk cs)

/-- `send_webhooks(installation, event, **kwargs)`: look up the service hook
by `(organization_id, actor_id)`, require the event in its subscribed set,
compute `project_limited` from the existence of `ServiceHookProject` rows,
and only when no such rows exist split the event name and send the
`AppPlatformEvent`. -/
def sendWebhooks {α : Type} (st : DeliveryState) (inst : InstallationRec)
    (event : String) (data : α) (actor : Option Nat) : GateOutcome α :=
  match st.serviceHooks.filter
      (fun h => h.organization_id == inst.organization_id && h.actor_id == inst.id) with
  | [] => .missingHook
  | [hook] =>
    if event ∈ hook.events then
      if st.serviceHookProjects.any (fun p => p.1 == hook.id) then
        .projectLimitedSkip
      else
        match splitEventName event with
        | [r, a] => .sent ⟨r, a, inst, data, actor⟩
        | _ => .splitError
    else .eventNotSubscribed
  | _ :: _ :: _ => .multipleHooksError

/-- The envelopes actually handed to the HTTP transport by a gate outcome. -/
def GateOutcome.envelopes {α : Type} : GateOutcome α → List (Envelope α)
  | .sent env => [env]
  | _ => []

/-- Log lines written by `send_webhooks`. -/
def GateOutcome.logs {α : Type} : GateOutcome α → List String
  | .missingHook => ["send_webhooks.missing_servicehook"]
  | _ => []

/-- Result of one `send_resource_change_webhook` task invocation. -/
inductive RCOutcome (α : Type) where
  /-- `app_service.installation_by_id` returned nothing: logged no-op. -/
  | missingInstallation
  /-- The task ran `send_webhooks` with the given gate outcome. -/
  | completed (gate : GateOutcome α)
deriving DecidableEq, Repr

/-- `send_resource_change_webhook(installation_id, event, data)`: re-resolve
the installation, then route through `send_webhooks` (no actor). -/
def sendResourceChangeWebhook {α : Type} (st : DeliveryState)
    (installationId : Nat) (event : String) (data : α) : RCOutcome α :=
  match st.installations.find? (fun i => i.id == installationId) with
  | none => .missingInstallation
  | some inst => .completed (sendWebhooks st inst event data none)

/-! ### Resource-change router (`_process_resource_change`) -/

/-- An inline event instance passed through `kwargs["instance"]` for the
`Error` sender: the fields the router reads (`event_id`, `project_id`,
`group_id`). -/
structure EventRec where
  event_id : Nat
  project_id : Nat
  group_id : Option Nat
deriving DecidableEq, Repr

/-- An `Activity` row (the `Comment` sender's model): only its `id` is
touched by the router. -/
structure ActivityRec where
  id : Nat
deriving DecidableEq, Repr

/-- Datastore state visible to `_process_resource_change`. -/
structure RouterState where
  groups : List GroupRec
  activities : List ActivityRec
  projects : List ProjectRec
  organizations : List Nat
  installations : List InstallationRec
deriving Repr

/-- `RESOURCE_RENAMES = {"Group": "issue"}`. -/
def RESOURCE_RENAMES : List (String × String) := [("Group", "issue")]

/-- The Python class name `model.__name__` of `TYPES[sender]`
(`TYPES = {"Group": Group, "Error": Event, "Comment": Activity}`). -/
def modelClassName (sender : String) : String :=
  if sender == "Group" then "Group"
  else if sender == "Error" then "Event"
  else if sender == "Comment" then "Activity"
  else sender

/-- The external resource name computed by the router: `sender.lower()` for
the `Error` (event-like) sender, otherwise
`RESOURCE_RENAMES.get(model.__name__, model.__name__.lower())`. -/
def classifyName (sender : String) : String :=
  if sender == "Error" then sender.toLower
  else
    match RESOURCE_RENAMES.lookup (modelClassName sender) with
    | some renamed => renamed
    | none => (modelClassName sender).toLower

/-- The classified external event name `f"{name}.{action}"`. -/
def classify (sender action : String) : String :=
  classifyName sender ++ "." ++ action

/-- Payload stored under `data[name]` in a scheduled delivery task:
`serialize(instance)` for non-event resources, `_webhook_event_data(...)`
for event-like instances. -/
inductive RouterPayload where
  | serialized (sender : String) (instanceId : Nat)
  | webhookEventData (eventId : Nat) (groupId : Nat) (projectId : Nat)
deriving DecidableEq, Repr

/-- One `send_resource_change_webhook.delay(...)` call scheduled by the
router: installation id, event name, and the single-key `data` mapping. -/
structure DeliveryTaskRec where
  installation_id : Nat
  event : String
  dataKey : String
  dataVal : RouterPayload
deriving DecidableEq, Repr

/-- Result of one `_process_resource_change` invocation. -/
inductive RouterOutcome where
  /-- `TYPES[sender]` raised `KeyError`. -/
  | badSender
  /-- Event-like sender without `kwargs["instance"]`: logged terminal no-op. -/
  | missingInline
  /-- `model.objects.get` raised `DoesNotExist`: `retryer.retry(exc=e)`. -/
  | retried
  /-- Classified event not in `VALID_EVENTS`: silent terminal return. -/
  | invalidEvent
  /-- `Project`/`Organization` cache lookup raised `DoesNotExist`. -/
  | lookupError
  /-- `assert instance.group_id` failed while building webhook event data. -/
  | assertFailed
  /-- The router finished, scheduling one delivery task per surviving
  installation (the empty list covers both zero surviving installations and
  the non-`isinstance` fall-through). -/
  | fanOut (tasks : List DeliveryTaskRec)
deriving DecidableEq, Repr

/-- Delivery tasks scheduled by a router outcome. -/
def RouterOutcome.scheduled : RouterOutcome → List DeliveryTaskRec
  | .fanOut tasks => tasks
  | _ => []

/-- Whether the router outcome called `retryer.retry`. -/
def RouterOutcome.isRetry : RouterOutcome → Bool
  | .retried => true
  | _ => false

/-- Log lines written by the router. -/
def RouterOutcome.logs : RouterOutcome → List String
  | .missingInline => ["process_resource_change.event_missing_event"]
  | _ => []

/-- `app_service.get_installed_for_organization(organization_id)`: the
installations of the organization in `INSTALLED` status. -/
def installedForOrganization (st : RouterState) (orgId : Nat) :
    List InstallationRec :=
  st.installations.filter
    (fun i => i.organization_id == orgId && i.status == .installed)

/-- Fan-out over the installations subscribed to `event`: the body of the
`for installation in installations` loop for a `Group` instance, where
`data = {name: serialize(instance)}`. -/
def groupFanOut (st : RouterState) (orgId : Nat) (event name : String)
    (instanceId : Nat) : List DeliveryTaskRec :=
  ((installedForOrganization st orgId).filter
      (fun i => event ∈ i.sentry_app_events)).map
    (fun i => ⟨i.id, event, name, .serialized "Group" instanceId⟩)

/-- `_process_resource_change(action, sender, instance_id, **kwargs)`:
resolve the instance (inline for event-like senders, by primary key
otherwise, retrying on `DoesNotExist`), classify, drop events outside
`VALID_EVENTS` (passed here as `validEvents`), resolve the organization and
schedule one `send_resource_change_webhook` task per installed installation
subscribed to the event.  An `Activity` instance fails the
`isinstance(instance, (Group, Event, GroupEvent))` test, so the fan-out
block is skipped entirely. -/
def processResourceChange (validEvents : List String) (st : RouterState)
    (action sender : String) (instanceId : Nat) (inline : Option EventRec) :
    RouterOutcome :=
  if sender == "Error" then
    match inline with
    | none => .missingInline
    | some ev =>
      let event := classify sender action
      if event ∈ validEvents then
        match st.projects.find? (fun p => p.id == ev.project_id) with
        | none => .lookupError
        | some p =>
          if p.organization_id ∈ st.organizations then
            let installs := (installedForOrganization st p.organization_id).filter
              (fun i => event ∈ i.sentry_app_events)
            match ev.group_id with
            | none => if installs.isEmpty then .fanOut [] else .assertFailed
            | some gid =>
              .fanOut (installs.map (fun i =>
                ⟨i.id, event, classifyName sender,
                  .webhookEventData ev.event_id gid ev.project_id⟩))
          else .lookupError
      else .invalidEvent
  else if sender == "Group" then
    match st.groups.find? (fun g => g.id == instanceId) with
    | none => .retried
    | some g =>
      let event := classify sender action
      if event ∈ validEvents then
        match st.projects.find? (fun p => p.id == g.project_id) with
        | none => .lookupError
        | some p =>
          if p.organization_id ∈ st.organizations then
            .fanOut (groupFanOut st p.organization_id event
              (classifyName sender) instanceId)
          else .lookupError
      else .invalidEvent
  else if sender == "Comment" then
    match st.activities.find? (fun a => a.id == instanceId) with
    | none => .retried
    | some _ =>
      let event := classify sender action
      if event ∈ validEvents then .fanOut [] else .invalidEvent
  else .badSender

/-- Whether the RESOLVE step of the router succeeds: the inline instance is
present for the event-like sender, and the primary-key lookup finds a row
for the other senders. -/
def resolveOk (st : RouterState) (sender : String) (instanceId : Nat)
    (inline : Option EventRec) : Bool :=
  if sender == "Error" then inline.isSome
  else if sender == "Group" then
    (st.groups.find? (fun g => g.id == instanceId)).isSome
  else if sender == "Comment" then
    (st.activities.find? (fun a => a.id == instanceId)).isSome
  else false

/-! ### Alert-trigger delivery (`send_alert_event`) -/

/-- A `SentryApp` row: `id` and `application_id`. -/
structure SentryAppRec where
  id : Nat
  application_id : Nat
deriving DecidableEq, Repr

/-- Datastore state visible to `send_alert_event`. -/
structure AlertState where
  apps : List SentryAppRec
  installations : List InstallationRec
  projects : List ProjectRec
  organizations : List Nat
deriving Repr

/-- Result of one `send_alert_event` task invocation. -/
inductive AlertOutcome where
  /-- `assert group` failed: the event has no group. -/
  | assertNoGroup
  /-- `Project`/`Organization` cache lookup raised `DoesNotExist`. -/
  | lookupError
  /-- `app_service.get_sentry_app_by_id` returned `None`: logged no-op. -/
  | missingSentryApp
  /-- `app_service.get_many` returned an empty list: logged no-op. -/
  | missingInstallation
  /-- `(install,) = installations` raised `ValueError`: more than one row. -/
  | unpackError
  /-- `send_and_save_webhook_request` was invoked for this installation. -/
  | sent (install : InstallationRec)
deriving DecidableEq, Repr

/-- Log lines written by `send_alert_event`. -/
def AlertOutcome.logs : AlertOutcome → List String
  | .missingSentryApp => ["event_alert_webhook.missing_sentry_app"]
  | .missingInstallation => ["event_alert_webhook.missing_installation"]
  | _ => []

/-- The installations `app_service.get_many` returns inside
`send_alert_event`: `organization_id`, `app_ids=[app.id]`,
`status=INSTALLED`. -/
def alertInstallations (st : AlertState) (orgId appId : Nat) :
    List InstallationRec :=
  st.installations.filter (fun i =>
    i.organization_id == orgId && i.sentry_app_id == appId &&
    i.status == .installed)

/-- `send_alert_event(event, rule, sentry_app_id, ...)`: assert the event's
group, resolve project and organization, resolve the app, then the
installations of `(organization, app)` in `INSTALLED` status; an empty list
is the logged `missing_installation` no-op, and `(install,) = installations`
unpacks the single row — raising `ValueError` when there are several.  The
payload construction of the success path is a function of the resolved
installation and the task's arguments; this model records the installation
the request was sent for. -/
def sendAlertEvent (st : AlertState) (eventGroup : Option GroupRec)
    (sentryAppId : Nat) : AlertOutcome :=
  match eventGroup with
  | none => .assertNoGroup
  | some g =>
    match st.projects.find? (fun p => p.id == g.project_id) with
    | none => .lookupError
    | some p =>
      if p.organization_id ∈ st.organizations then
        match st.apps.find? (fun a => a.id == sentryAppId) with
        | none => .missingSentryApp
        | some app =>
          match alertInstallations st p.organization_id app.id with
          | [] => .missingInstallation
          | [inst] => .sent inst
          | _ :: _ :: _ => .unpackError
      else .lookupError

/-! ### Workflow notifications (`workflow_notification`, `get_webhook_data`) -/

/-- A JSON-like value inside a workflow `data` mapping: either raw
caller-provided content or the serialized issue. -/
inductive WVal where
  | raw (s : String)
  | serializedGroup (id : Nat)
deriving DecidableEq, Repr

/-- Python `dict.update({k: v})` on an association list: replace the value
in place when the key exists, append the pair otherwise. -/
def dictUpdate (l : List (String × WVal)) (k : String) (v : WVal) :
    List (String × WVal) :=
  if l.any (fun p => p.1 == k) then
    l.map (fun p => if p.1 == k then (k, v) else p)
  else l ++ [(k, v)]

/-- `get_webhook_data(installation_id, issue_id, user_id)`: resolve the
installation and the issue (either missing is a logged `None` return); a
missing user is only logged — the triple is still returned, with the user
slot `None`.  `if user_id:` skips the lookup entirely for a falsy id. -/
def getWebhookData (st : DeliveryState) (installationId issueId userId : Nat) :
    Option (InstallationRec × GroupRec × Option Nat) × List String :=
  match st.installations.find? (fun i => i.id == installationId) with
  | none => (none, ["workflow_notification.missing_installation"])
  | some install =>
    match st.groups.find? (fun g => g.id == issueId) with
    | none => (none, ["workflow_notification.missing_issue"])
    | some issue =>
      if userId ≠ 0 then
        if userId ∈ st.users then (some (install, issue, some userId), [])
        else (some (install, issue, none), ["workflow_notification.missing_user"])
      else (some (install, issue, none), [])

/-- `workflow_notification(installation_id, issue_id, type, user_id, ...)`:
a falsy `get_webhook_data` result is a terminal no-op; otherwise the caller
data is updated with the serialized issue and routed through
`send_webhooks` with event `f"issue.{type}"` and the resolved actor. -/
def workflowNotification (st : DeliveryState) (installationId issueId : Nat)
    (type : String) (userId : Nat) (data : List (String × WVal)) :
    Option (GateOutcome (List (String × WVal))) × List String :=
  match getWebhookData st installationId issueId userId with
  | (none, logs) => (none, logs)
  | (some (install, issue, user), logs) =>
    let d := dictUpdate data "issue" (.serializedGroup issue.id)
    (some (sendWebhooks st install ("issue." ++ type) d user), logs)

/-! ### Region cache invalidation (`clear_region_cache`) -/

/-- A point cache key cleared by `region_caching_service.clear_key`: the
app's `get_by_application_id` lookup key or an installation's
`get_installation` lookup key. -/
inductive CacheKey where
  | byApplicationId (applicationId : Nat)
  | installation (installId : Nat)
deriving DecidableEq, Repr

/-- Datastore state visible to `clear_region_cache`: apps, installations and
`OrganizationMapping` rows (`(organization_id, region_name)` pairs). -/
structure RegionState where
  apps : List SentryAppRec
  installations : List InstallationRec
  orgMappings : List (Nat × String)
deriving Repr

/-- `clear_region_cache(sentry_app_id, region_name)`: a missing app is a
silent return; otherwise the app's `application_id` key is cleared
unconditionally, and then one key per installation whose owning
organization has an `OrganizationMapping` row in the given region.  The
returned list is the sequence of `clear_key` calls issued, each paired with
its `region_name` argument. -/
def clearRegionCache (st : RegionState) (sentryAppId : Nat)
    (regionName : String) : List (CacheKey × String) :=
  match st.apps.find? (fun a => a.id == sentryAppId) with
  | none => []
  | some app =>
    let installs := st.installations.filter
      (fun i => i.sentry_app_id == app.id)
    let orgIds := installs.map (fun i => i.organization_id)
    let regionRows := st.orgMappings.filter
      (fun m => orgIds.contains m.1 && m.2 == regionName)
    (CacheKey.byApplicationId app.application_id, regionName) ::
      regionRows.flatMap (fun m =>
        (installs.filter (fun i => i.organization_id == m.1)).map
          (fun i => (CacheKey.installation i.id, regionName)))

/-! ### Event-frequency condition handlers -/

/-- `EventFrequencyCountHandler.evaluate_value(value, comparison)`: `False`
unless `value.get("snuba_results", [])` has exactly one element, otherwise
whether that element strictly exceeds `comparison["value"]`. -/
def evaluateValueCount (snubaResults : Option (List Int)) (cmp : Int) : Bool :=
  let rs := snubaResults.getD []
  if rs.length ≠ 1 then false
  else decide (rs.getD 0 0 > cmp)

/-- `EventFrequencyPercentHandler.evaluate_value(value, comparison)`:
`False` unless `value.get("snuba_results", [])` has exactly two elements,
otherwise whether `percent_increase(first, second)` strictly exceeds
`comparison["value"]`.  `percent_increase` lives outside this module and is
taken as a parameter. -/
def evaluateValuePercent (percentIncrease : Int → Int → ℚ)
    (snubaResults : Option (List Int)) (cmp : Int) : Bool :=
  let rs := snubaResults.getD []
  if rs.length ≠ 2 then false
  else decide (percentIncrease (rs.getD 0 0) (rs.getD 1 0) > (cmp : ℚ))

/-! ### Theorems -/

/-- C10: `EventFrequencyCountHandler.evaluate_value` returns `True` iff the
`snuba_results` list has exactly one element and that element strictly
exceeds `comparison["value"]` (a missing key or any other length yields
`False`); `EventFrequencyPercentHandler.evaluate_value` returns `True` iff
`snuba_results` has exactly two elements and the percent increase of the
first over the second strictly exceeds `comparison["value"]`. -/
theorem event_frequency_evaluate_value_spec (percentIncrease : Int → Int → ℚ)
    (snubaResults : Option (List Int)) (cmp : Int) :
    (evaluateValueCount snubaResults cmp = true ↔
      ∃ x, snubaResults.getD [] = [x] ∧ x > cmp) ∧
    (evaluateValuePercent percentIncrease snubaResults cmp = true ↔
      ∃ x y, snubaResults.getD [] = [x, y] ∧
        percentIncrease x y > (cmp : ℚ)) := by
  constructor
  · unfold evaluateValueCount
    rcases h : snubaResults.getD [] with - | ⟨x, - | ⟨y, t⟩⟩ <;> simp [h]
  · unfold evaluateValuePercent
    rcases h : snubaResults.getD [] with - | ⟨x, - | ⟨y, - | ⟨z, t⟩⟩⟩ <;>
      simp [h, and_assoc]

/-- C3: invoking the router for the event-like sender (`"Error"`) without an
inline instance is a logged terminal no-op: no retry, no scheduled delivery
task, a single `event_missing_event` log line. -/
theorem missing_inline_event_noop (validEvents : List String)
    (st : RouterState) (action : String) (instanceId : Nat) :
    processResourceChange validEvents st action "Error" instanceId none =
        .missingInline ∧
    (processResourceChange validEvents st action "Error" instanceId
        none).scheduled = [] ∧
    (processResourceChange validEvents st action "Error" instanceId
        none).isRetry = false ∧
    (processResourceChange validEvents st action "Error" instanceId
        none).logs = ["process_resource_change.event_missing_event"] :=
  ⟨rfl, rfl, rfl, rfl⟩

/-- C2: when the RESOLVE step succeeds and the classified event name is not
in the valid-event registry, the router takes the silent terminal return:
no delivery task is scheduled, no retry, no log. -/
theorem invalid_event_terminal_noop (validEvents : List String)
    (st : RouterState) (action sender : String) (instanceId : Nat)
    (inline : Option EventRec)
    (hres : resolveOk st sender instanceId inline = true)
    (hev : classify sender action ∉ validEvents) :
    processResourceChange validEvents st action sender instanceId inline =
        .invalidEvent ∧
    (processResourceChange validEvents st action sender instanceId
        inline).scheduled = [] ∧
    (processResourceChange validEvents st action sender instanceId
        inline).isRetry = false ∧
    (processResourceChange validEvents st action sender instanceId
        inline).logs = [] := by
  have hmain : processResourceChange validEvents st action sender instanceId
      inline = .invalidEvent := by
    unfold processResourceChange
    unfold resolveOk at hres
    by_cases hE : sender = "Error"
    · subst hE
      simp only [beq_self_eq_true, if_true] at hres ⊢
      cases inline with
      | none => simp at hres
      | some ev => simp [hev]
    · by_cases hG : sender = "Group"
      · subst hG
        simp only [show (("Group" == "Error") = false) from rfl,
          beq_self_eq_true, if_true, Bool.false_eq_true, if_false] at hres ⊢
        obtain ⟨g, hg⟩ := Option.isSome_iff_exists.mp hres
        simp [hg, hev]
      · by_cases hC : sender = "Comment"
        · subst hC
          simp only [show (("Comment" == "Error") = false) from rfl,
            show (("Comment" == "Group") = false) from rfl,
            beq_self_eq_true, if_true, Bool.false_eq_true, if_false]
            at hres ⊢
          obtain ⟨ac, ha⟩ := Option.isSome_iff_exists.mp hres
          simp [ha, hev]
        · simp [hE, hG, hC] at hres
  exact ⟨hmain, by rw [hmain]; rfl, by rw [hmain]; rfl, by rw [hmain]; rfl⟩

/-- C2 witness: `"issue.deleted"` is not in the registry, so a resolved
`Group` change with action `"deleted"` is the silent terminal return. -/
theorem invalid_event_terminal_noop_witness :
    processResourceChange ["issue.created"]
        ⟨[⟨5, 10⟩], [], [⟨10, 20⟩], [20], []⟩ "deleted" "Group" 5 none =
      .invalidEvent :=
  (invalid_event_terminal_noop ["issue.created"]
    ⟨[⟨5, 10⟩], [], [⟨10, 20⟩], [20], []⟩ "deleted" "Group" 5 none
    (by decide) (by decide)).1

/-- C4: for a non-event sender (`"Group"` or `"Comment"`) whose instance id
is not found, the router calls `retryer.retry` and schedules no delivery
task. -/
theorem missing_instance_retries (validEvents : List String)
    (st : RouterState) (action sender : String) (instanceId : Nat)
    (inline : Option EventRec)
    (h : (sender = "Group" ∧
            st.groups.find? (fun g => g.id == instanceId) = none) ∨
         (sender = "Comment" ∧
            st.activities.find? (fun a => a.id == instanceId) = none)) :
    processResourceChange validEvents st action sender instanceId inline =
        .retried ∧
    (processResourceChange validEvents st action sender instanceId
        inline).scheduled = [] := by
  have hmain : processResourceChange validEvents st action sender instanceId
      inline = .retried := by
    rcases h with ⟨hs, hf⟩ | ⟨hs, hf⟩ <;> subst hs <;>
      simp [processResourceChange, hf]
  exact ⟨hmain, by rw [hmain]; rfl⟩

/-- C4 witness: a `Group` change whose row does not exist is retried. -/
theorem missing_instance_retries_witness :
    processResourceChange [] ⟨[], [], [], [], []⟩ "created" "Group" 5 none =
        .retried ∧
    (processResourceChange [] ⟨[], [], [], [], []⟩ "created" "Group" 5
        none).scheduled = [] :=
  missing_instance_retries [] ⟨[], [], [], [], []⟩ "created" "Group" 5 none
    (Or.inl ⟨rfl, by decide⟩)

/-- C8: a `Group`/`created` change classifies to `"issue.created"`, and when
exactly one installed installation of the organization subscribes to it,
exactly one delivery task is scheduled, carrying `event = "issue.created"`
and the serialized instance under the `"issue"` key. -/
theorem group_created_single_fanout (validEvents : List String)
    (st : RouterState) (instanceId : Nat) (g : GroupRec) (p : ProjectRec)
    (inst : InstallationRec)
    (hvalid : "issue.created" ∈ validEvents)
    (hg : st.groups.find? (fun x => x.id == instanceId) = some g)
    (hp : st.projects.find? (fun x => x.id == g.project_id) = some p)
    (ho : p.organization_id ∈ st.organizations)
    (hfilter : (installedForOrganization st p.organization_id).filter
        (fun i => "issue.created" ∈ i.sentry_app_events) = [inst]) :
    classify "Group" "created" = "issue.created" ∧
    processResourceChange validEvents st "created" "Group" instanceId none =
      .fanOut [⟨inst.id, "issue.created", "issue",
        .serialized "Group" instanceId⟩] := by
  have hc : classify "Group" "created" = "issue.created" := rfl
  refine ⟨hc, ?_⟩
  have hn : classifyName "Group" = "issue" := rfl
  simp only [processResourceChange, show (("Group" == "Error") = false)
    from rfl, beq_self_eq_true, if_true, Bool.false_eq_true, if_false, hg,
    hc, hn, if_pos hvalid, hp, if_pos ho, groupFanOut, hfilter, List.map]

/-- C8 witness: one installed installation subscribed to `"issue.created"`
yields exactly that one delivery task. -/
theorem group_created_single_fanout_witness :
    classify "Group" "created" = "issue.created" ∧
    processResourceChange ["issue.created"]
        ⟨[⟨5, 10⟩], [], [⟨10, 20⟩], [20],
          [⟨1, 20, .installed, ["issue.created"], 7⟩]⟩
        "created" "Group" 5 none =
      .fanOut [⟨1, "issue.created", "issue", .serialized "Group" 5⟩] :=
  group_created_single_fanout ["issue.created"]
    ⟨[⟨5, 10⟩], [], [⟨10, 20⟩], [20],
      [⟨1, 20, .installed, ["issue.created"], 7⟩]⟩
    5 ⟨5, 10⟩ ⟨10, 20⟩ ⟨1, 20, .installed, ["issue.created"], 7⟩
    (by decide) (by decide) (by decide) (by decide) (by decide)

/-- Concrete delivery state for claim C1: one service hook (id 3) for
installation 1 in organization 20 subscribed to `"issue.created"`, and one
`ServiceHookProject` scoping record for that hook. -/
def scopedHookState : DeliveryState :=
  ⟨[], [⟨3, 20, 1, ["issue.created"]⟩], [(3, 99)], [], []⟩

/-- C1 counterexample: the service hook exists, lists the event, and one
project-scoping record exists for it — yet `send_webhooks` falls through
the `if not project_limited` guard and makes no outbound request, refuting
"scoping records exist ⇒ send anyway". -/
theorem scoping_record_blocks_send_cex :
    sendWebhooks scopedHookState ⟨1, 20, .installed, [], 7⟩ "issue.created"
        (0 : Nat) none = .projectLimitedSkip ∧
    (sendWebhooks scopedHookState ⟨1, 20, .installed, [], 7⟩ "issue.created"
        (0 : Nat) none).envelopes = [] ∧
    scopedHookState.serviceHooks.filter (fun h => h.organization_id == 20 &&
      h.actor_id == 1) = [⟨3, 20, 1, ["issue.created"]⟩] ∧
    "issue.created" ∈
      (⟨3, 20, 1, ["issue.created"]⟩ : ServiceHookRec).events ∧
    scopedHookState.serviceHookProjects.any (fun p => p.1 == 3) = true := by
  decide

/-- C1 (amended): when the installation's service hook exists and lists the
event, `send_webhooks` sends only if no project-scoping record exists for
the hook; any scoping record makes it skip the send entirely. -/
theorem send_webhooks_scoping_gate {α : Type} (st : DeliveryState)
    (inst : InstallationRec) (event : String) (data : α)
    (actor : Option Nat) (hook : ServiceHookRec)
    (hhook : st.serviceHooks.filter (fun h =>
        h.organization_id == inst.organization_id &&
        h.actor_id == inst.id) = [hook])
    (hev : event ∈ hook.events) :
    (st.serviceHookProjects.any (fun p => p.1 == hook.id) = true →
      sendWebhooks st inst event data actor = .projectLimitedSkip) ∧
    (st.serviceHookProjects.any (fun p => p.1 == hook.id) = false →
      ∀ r a, splitEventName event = [r, a] →
        sendWebhooks st inst event data actor =
          .sent ⟨r, a, inst, data, actor⟩) := by
  constructor
  · intro hlim
    simp [sendWebhooks, hhook, hev, hlim]
  · intro hlim r a hsplit
    simp [sendWebhooks, hhook, hev, hlim, hsplit]

/-- C1 witness: with a scoping record present the gate skips; with none it
sends. -/
theorem send_webhooks_scoping_gate_witness :
    sendWebhooks scopedHookState ⟨1, 20, .installed, [], 7⟩ "issue.created"
      (0 : Nat) none = .projectLimitedSkip :=
  (send_webhooks_scoping_gate scopedHookState ⟨1, 20, .installed, [], 7⟩
    "issue.created" 0 none ⟨3, 20, 1, ["issue.created"]⟩ (by decide)
    (by decide)).1 (by decide)

/-- C9: `send_resource_change_webhook` is a pure function of
`(installation_id, event, data)` and the datastore state, and whenever it
sends, the outbound envelope is exactly the split event name, the
re-resolved installation, and the caller's `data` passed through unchanged
with no actor — so two invocations with identical inputs against the same
records construct identical envelopes. -/
theorem resource_change_webhook_identical_envelopes {α : Type}
    (st : DeliveryState) (installationId : Nat) (event : String) (data : α)
    (inst : InstallationRec) (hook : ServiceHookRec) (r a : String)
    (hinst : st.installations.find? (fun i => i.id == installationId) =
      some inst)
    (hhook : st.serviceHooks.filter (fun h =>
        h.organization_id == inst.organization_id &&
        h.actor_id == inst.id) = [hook])
    (hev : event ∈ hook.events)
    (hnl : st.serviceHookProjects.any (fun p => p.1 == hook.id) = false)
    (hsplit : splitEventName event = [r, a]) :
    sendResourceChangeWebhook st installationId event data =
      .completed (.sent ⟨r, a, inst, data, none⟩) := by
  simp [sendResourceChangeWebhook, hinst, sendWebhooks, hhook, hev, hnl,
    hsplit]

/-- C9 witness: a concrete delivery constructs exactly the expected
envelope. -/
theorem resource_change_webhook_identical_envelopes_witness :
    sendResourceChangeWebhook
        (⟨[⟨1, 20, .installed, [], 7⟩], [⟨3, 20, 1, ["issue.created"]⟩],
          [], [], []⟩ : DeliveryState) 1 "issue.created" (0 : Nat) =
      .completed (.sent ⟨"issue", "created", ⟨1, 20, .installed, [], 7⟩,
        0, none⟩) :=
  resource_change_webhook_identical_envelopes
    ⟨[⟨1, 20, .installed, [], 7⟩], [⟨3, 20, 1, ["issue.created"]⟩], [], [],
      []⟩
    1 "issue.created" 0 ⟨1, 20, .installed, [], 7⟩
    ⟨3, 20, 1, ["issue.created"]⟩ "issue" "created" (by decide) (by decide)
    (by decide) (by decide) (by decide)

/-- Concrete alert state for claim C5: app 7 with two installed
installations in organization 20. -/
def twoInstallState : AlertState :=
  ⟨[⟨7, 70⟩], [⟨1, 20, .installed, [], 7⟩, ⟨2, 20, .installed, [], 7⟩],
    [⟨10, 20⟩], [20]⟩

/-- C5 counterexample: with two installed installations of the app in the
organization, `(install,) = installations` raises `ValueError` — the task
is an unhandled error with no log line, not a logged no-op. -/
theorem multiple_installations_unpack_error_cex :
    sendAlertEvent twoInstallState (some ⟨5, 10⟩) 7 = .unpackError ∧
    (sendAlertEvent twoInstallState (some ⟨5, 10⟩) 7).logs = [] := by
  decide

/-- C5 (amended): with the group, project, organization and app resolved,
zero installed installations is the logged `missing_installation` no-op,
while more than one makes the single-row unpacking raise an error. -/
theorem alert_event_installation_gate (st : AlertState) (g : GroupRec)
    (p : ProjectRec) (app : SentryAppRec) (sentryAppId : Nat)
    (hp : st.projects.find? (fun x => x.id == g.project_id) = some p)
    (ho : p.organization_id ∈ st.organizations)
    (happ : st.apps.find? (fun a => a.id == sentryAppId) = some app) :
    (alertInstallations st p.organization_id app.id = [] →
      sendAlertEvent st (some g) sentryAppId = .missingInstallation ∧
      (sendAlertEvent st (some g) sentryAppId).logs =
        ["event_alert_webhook.missing_installation"]) ∧
    (2 ≤ (alertInstallations st p.organization_id app.id).length →
      sendAlertEvent st (some g) sentryAppId = .unpackError) := by
  constructor
  · intro hnone
    have hmain : sendAlertEvent st (some g) sentryAppId =
        .missingInstallation := by
      simp [sendAlertEvent, hp, ho, happ, hnone]
    exact ⟨hmain, by rw [hmain]; rfl⟩
  · intro htwo
    rcases hl : alertInstallations st p.organization_id app.id with
      - | ⟨i₁, - | ⟨i₂, rest⟩⟩
    · rw [hl] at htwo; simp at htwo
    · rw [hl] at htwo; simp at htwo
    · simp [sendAlertEvent, hp, ho, happ, hl]

/-- C5 witness: zero installed installations is the logged no-op. -/
theorem alert_event_installation_gate_witness :
    sendAlertEvent (⟨[⟨7, 70⟩], [], [⟨10, 20⟩], [20]⟩ : AlertState)
        (some ⟨5, 10⟩) 7 = .missingInstallation ∧
    (sendAlertEvent (⟨[⟨7, 70⟩], [], [⟨10, 20⟩], [20]⟩ : AlertState)
        (some ⟨5, 10⟩) 7).logs =
      ["event_alert_webhook.missing_installation"] :=
  (alert_event_installation_gate ⟨[⟨7, 70⟩], [], [⟨10, 20⟩], [20]⟩
    ⟨5, 10⟩ ⟨10, 20⟩ ⟨7, 70⟩ 7 (by decide) (by decide) (by decide)).1
    (by decide)

/-- Concrete delivery state for claim C6: installation 1 and issue 2 exist,
the hook subscribes to `"issue.assigned"` with no scoping records, and no
user exists. -/
def missingUserState : DeliveryState :=
  ⟨[⟨1, 20, .installed, [], 7⟩], [⟨3, 20, 1, ["issue.assigned"]⟩], [],
    [⟨2, 10⟩], []⟩

/-- C6 counterexample: with installation and issue resolved but the actor
user missing, `get_webhook_data` only logs `missing_user` and still returns
the triple — the webhook is sent (with no actor), refuting "missing any of
the three parties ⇒ no webhook is sent". -/
theorem missing_user_still_sends_cex :
    workflowNotification missingUserState 1 2 "assigned" 7 [] =
      (some (.sent ⟨"issue", "assigned", ⟨1, 20, .installed, [], 7⟩,
          [("issue", .serializedGroup 2)], none⟩),
        ["workflow_notification.missing_user"]) := by
  decide

/-- C6 (amended): a missing installation or a missing issue is a logged
terminal no-op with no gate invocation; a missing actor user is only
logged — the data is still merged with the serialized issue and routed
through `send_webhooks` with no actor. -/
theorem workflow_notification_party_gate (st : DeliveryState)
    (installationId issueId userId : Nat) (type : String)
    (data : List (String × WVal)) :
    (st.installations.find? (fun i => i.id == installationId) = none →
      workflowNotification st installationId issueId type userId data =
        (none, ["workflow_notification.missing_installation"])) ∧
    (∀ install,
      st.installations.find? (fun i => i.id == installationId) =
        some install →
      st.groups.find? (fun g => g.id == issueId) = none →
      workflowNotification st installationId issueId type userId data =
        (none, ["workflow_notification.missing_issue"])) ∧
    (∀ install issue,
      st.installations.find? (fun i => i.id == installationId) =
        some install →
      st.groups.find? (fun g => g.id == issueId) = some issue →
      userId ≠ 0 → userId ∉ st.users →
      workflowNotification st installationId issueId type userId data =
        (some (sendWebhooks st install ("issue." ++ type)
            (dictUpdate data "issue" (.serializedGroup issue.id)) none),
          ["workflow_notification.missing_user"])) := by
  refine ⟨?_, ?_, ?_⟩
  · intro hnone
    simp [workflowNotification, getWebhookData, hnone]
  · intro install hinst hnone
    simp [workflowNotification, getWebhookData, hinst, hnone]
  · intro install issue hinst hissue huser hmiss
    simp [workflowNotification, getWebhookData, hinst, hissue, huser, hmiss]

/-- C6 witness: a missing installation is the logged terminal no-op. -/
theorem workflow_notification_party_gate_witness :
    workflowNotification (⟨[], [], [], [], []⟩ : DeliveryState) 1 2
        "assigned" 7 [] =
      (none, ["workflow_notification.missing_installation"]) :=
  (workflow_notification_party_gate ⟨[], [], [], [], []⟩ 1 2 7 "assigned"
    []).1 (by decide)

/-- Concrete region state for claim C7: app 1 (application id 10) with one
installation in organization 2, which maps to region `"eu"` only. -/
def euOnlyState : RegionState :=
  ⟨[⟨1, 10⟩], [⟨5, 2, .installed, [], 1⟩], [(2, "eu")]⟩

/-- C7 counterexample: invalidating app 1 in region `"us"` while its only
installation's organization maps to `"eu"` still issues one call — the
app's external-id lookup key is cleared unconditionally — refuting "zero
cache-invalidation calls are issued". -/
theorem region_cache_app_key_always_cleared_cex :
    clearRegionCache euOnlyState 1 "us" =
      [(.byApplicationId 10, "us")] ∧
    clearRegionCache euOnlyState 1 "us" ≠ [] := by
  decide

/-- C7 (amended): when the app exists, the first invalidation call is
always the app's external-id lookup key; every further call is the
id-lookup key of an installation of the app whose organization maps to the
given region; and when no such organization exists, the app key is the only
call issued. -/
theorem clear_region_cache_calls (st : RegionState) (sentryAppId : Nat)
    (regionName : String) (app : SentryAppRec)
    (happ : st.apps.find? (fun a => a.id == sentryAppId) = some app) :
    ((clearRegionCache st sentryAppId regionName).head? =
      some (.byApplicationId app.application_id, regionName)) ∧
    (∀ c ∈ (clearRegionCache st sentryAppId regionName).tail, ∃ i,
      i ∈ st.installations ∧ i.sentry_app_id = app.id ∧
      c = (.installation i.id, regionName) ∧
      (i.organization_id, regionName) ∈ st.orgMappings) ∧
    ((∀ m ∈ st.orgMappings, m.2 = regionName →
        ∀ i ∈ st.installations, i.sentry_app_id = app.id →
          i.organization_id ≠ m.1) →
      clearRegionCache st sentryAppId regionName =
        [(.byApplicationId app.application_id, regionName)]) := by
  refine ⟨?_, ?_, ?_⟩
  · simp [clearRegionCache, happ]
  · intro c hc
    simp only [clearRegionCache, happ, List.tail_cons, List.mem_flatMap,
      List.mem_filter, List.mem_map] at hc
    obtain ⟨m, ⟨hm, hcond⟩, i, ⟨hi, hiapp⟩, hceq⟩ := hc
    rw [beq_iff_eq] at hiapp
    have happ2 : i.sentry_app_id = app.id := by
      have h2 := hi.2
      rwa [beq_iff_eq] at h2
    refine ⟨i, hi.1, happ2, hceq.symm, ?_⟩
    have hmr : (i.organization_id, regionName) = m := by
      rcases m with ⟨m₁, m₂⟩
      rw [Bool.and_eq_true, beq_iff_eq] at hcond
      simp only at hiapp
      rw [hiapp, ← hcond.2]
    rw [hmr]
    exact hm
  · intro hnone
    simp only [clearRegionCache, happ]
    congr 1
    rw [List.flatMap_eq_nil_iff]
    intro m hm
    rw [List.mem_filter, Bool.and_eq_true, beq_iff_eq] at hm
    rw [List.map_eq_nil_iff, List.filter_eq_nil_iff]
    intro i hi
    rw [List.mem_filter, beq_iff_eq] at hi
    simp only [beq_iff_eq]
    exact hnone m hm.1 hm.2.2 i hi.1 hi.2

/-- C7 witness: with the installation's organization mapped to the target
region, the head call is the app's external-id key. -/
theorem clear_region_cache_calls_witness :
    (clearRegionCache (⟨[⟨1, 10⟩], [⟨5, 2, .installed, [], 1⟩],
        [(2, "us")]⟩ : RegionState) 1 "us").head? =
      some (.byApplicationId 10, "us") :=
  (clear_region_cache_calls ⟨[⟨1, 10⟩], [⟨5, 2, .installed, [], 1⟩],
    [(2, "us")]⟩ 1 "us" ⟨1, 10⟩ (by decide)).1

end Sentry
